import Mathlib

/-!
Shallow embedding of the chat orchestration core of the `evolution-of-todo`
backend (`src/backend/app/ai/sessions.py`, `src/backend/app/ai/agent.py`,
`src/backend/app/routes/chat.py`, `src/backend/app/ai/models.py`).

Time is modelled as a natural number counted in hours (the only unit the
session-expiry logic uses).  Python dictionaries holding sessions are
modelled as association lists; `uuid.uuid4()` is modelled by passing the
fresh identifier as an explicit argument.
-/

namespace TaskFlow

/-- Outcome of `json.loads` on a tool call's `arguments` string:
either a parsed JSON object (field name/value pairs) or a parse failure
carrying the raw text. -/
inductive ToolArgs where
  | parsed (fields : List (String × String))
  | malformed (raw : String)
deriving DecidableEq, Repr

/-- One accumulated tool call, as collected from the model stream in
`process_chat_stream` (`tool_calls_data` entries: id, name, arguments). -/
structure ToolCallData where
  id : String
  name : String
  arguments : ToolArgs
deriving DecidableEq, Repr

/-- One entry of a message list (a Python dict with keys `role`, `content`,
and optionally `tool_calls` / `tool_call_id`).  An absent key is `none`. -/
structure Msg where
  role : String
  content : Option String
  tool_calls : Option (List ToolCallData) := none
  tool_call_id : Option String := none
deriving DecidableEq, Repr

/-- The message dict built at the top of `ChatSession.add_message`:
`{"role": role, "content": content}` plus a `tool_calls` key only when the
`tool_calls` argument is truthy (non-`None` and non-empty). -/
def mkMessage (role : String) (content : Option String)
    (tool_calls : Option (List ToolCallData)) : Msg :=
  { role := role
    content := content
    tool_calls :=
      match tool_calls with
      | some l => if l.isEmpty then none else some l
      | none => none
    tool_call_id := none }

/-- Model of `ChatSession` from `sessions.py`: id, owning user, message history and
timestamps (hours). -/
structure ChatSession where
  session_id : String
  user_id : String
  messages : List Msg
  created_at : Nat
  last_activity : Nat
deriving DecidableEq, Repr

/-- Model of `ChatSession.__init__(user_id)` with the generated uuid passed in. -/
def ChatSession.init (fresh_id : String) (user_id : String) (now : Nat) :
    ChatSession :=
  { session_id := fresh_id
    user_id := user_id
    messages := []
    created_at := now
    last_activity := now }

/-- Model of `ChatSession.add_message`: append the message, refresh `last_activity`,
then trim to `[messages[0]] + messages[-20:]` whenever the list exceeds 21
entries. -/
def ChatSession.add_message (s : ChatSession) (now : Nat) (role : String)
    (content : Option String)
    (tool_calls : Option (List ToolCallData) := none) : ChatSession :=
  let msgs := s.messages ++ [mkMessage role content tool_calls]
  let msgs :=
    if msgs.length > 21 then msgs.take 1 ++ msgs.drop (msgs.length - 20)
    else msgs
  { s with messages := msgs, last_activity := now }

/-- Model of `ChatSession.get_messages_for_api`: a copy of the stored list. -/
def ChatSession.get_messages_for_api (s : ChatSession) : List Msg :=
  s.messages

/-- Model of `ChatSession.is_expired`: true when `now` is strictly past
`last_activity + timeout_hours`. -/
def ChatSession.is_expired (s : ChatSession) (now : Nat)
    (timeout_hours : Nat := 24) : Bool :=
  s.last_activity + timeout_hours < now

/-- The global `_sessions` dict, as an association list keyed by id. -/
abbrev Store := List (String × ChatSession)

/-- Model of `_cleanup_expired_sessions`: drop every expired session. -/
def cleanup_expired_sessions (store : Store) (now : Nat) : Store :=
  store.filter (fun p => !(p.2.is_expired now 24))

/-- Model of `get_or_create_session(user_id, session_id)`:
sweep expired sessions, then return the stored session when the id is
truthy, present, owned by `user_id` and not expired; otherwise create a
fresh session (with the supplied fresh uuid) and register it. -/
def get_or_create_session (store : Store) (now : Nat) (user_id : String)
    (session_id : Option String) (fresh_id : String) :
    ChatSession × Store :=
  let store := cleanup_expired_sessions store now
  let hit : Option ChatSession :=
    match session_id with
    | some sid =>
      if sid = "" then none
      else
        match store.lookup sid with
        | some s =>
          if s.user_id == user_id && !(s.is_expired now 24) then some s
          else none
        | none => none
    | none => none
  match hit with
  | some s => (s, store)
  | none =>
    let s := ChatSession.init fresh_id user_id now
    (s, (fresh_id, s) :: store)

/-! ## The agent (`agent.py`) -/

/-- Model of `SYSTEM_PROMPT` (first line; only its role and position matter here). -/
def SYSTEM_PROMPT : String :=
  "You are TaskFlow AI, a helpful task management assistant."

/-- The system message prepended to the per-turn API message list. -/
def systemMessage : Msg :=
  { role := "system", content := some SYSTEM_PROMPT }

/-- A tool handler, as registered in `TOOL_HANDLERS`: it receives the
keyword argument `user_id` plus the model-supplied keyword arguments and
either returns a result string or raises (`Except.error` with the
exception text). -/
abbrev Handler := String → List (String × String) → Except String String

/-- The environment `process_chat_stream` runs in: whether
`settings.OPENAI_API_KEY` is set, and the `TOOL_HANDLERS` registry
(`TOOL_HANDLERS.get`). -/
structure AgentEnv where
  openai_key_set : Bool
  handlers : String → Option Handler

/-- The fully-consumed behaviour of one `client.chat.completions.create`
stream: either the awaited call / stream consumption raises after yielding
some content chunks, or the stream completes with its (truthy) content
deltas and accumulated tool calls. -/
inductive RoundScript where
  | gatewayError (chunks : List String) (message : String)
  | reply (chunks : List String) (tool_calls : List ToolCallData)

/-- A stream event yielded by `process_chat_stream` (the payload of one
`data: {...}` SSE frame). -/
inductive StreamEvent where
  | content (text : String) (session_id : Option String)
  | tool_call (id : String) (name : String)
      (arguments : List (String × String))
  | error (message : String)
  | done
deriving DecidableEq, Repr

/-- Is this an `error` event? -/
def StreamEvent.isError : StreamEvent → Bool
  | .error _ => true
  | _ => false

/-- The `content` events yielded while consuming one model stream: one per
truthy content delta (`if delta.content:` skips empty deltas). -/
def content_events (chunks : List String) : List StreamEvent :=
  (chunks.filter (fun c => c != "")).map (fun c => StreamEvent.content c none)

/-- Model of `full_content` as accumulated from the truthy content deltas. -/
def full_content_of (chunks : List String) : String :=
  ((chunks.filter (fun c => c != "")).foldl (fun a c => a ++ c) "")

/-- Model of `handler(user_id=user_id, **args)`: Python raises
`TypeError: got multiple values for keyword argument` when `args` itself
carries a `user_id` key (every registered handler declares `user_id` as a
parameter); otherwise the handler body runs with the injected `user_id`. -/
def call_handler (h : Handler) (user_id : String)
    (args : List (String × String)) : Except String String :=
  if args.any (fun kv => kv.1 == "user_id") then
    Except.error "got multiple values for keyword argument user_id"
  else h user_id args

/-- The `result` string computed for one tool call inside the inner
`try/except`: unknown names give a synthetic text, a raising call gives
the tool-execution-error text. -/
def execute_tool (env : AgentEnv) (user_id : String) (name : String)
    (args : List (String × String)) : String :=
  match env.handlers name with
  | some h =>
    match call_handler h user_id args with
    | Except.ok r => r
    | Except.error e => "Tool execution error: " ++ e
  | none => "Unknown tool: " ++ name

/-- The `tool_call` event yielded for one dispatched call. -/
def tool_call_event (tc : ToolCallData)
    (fields : List (String × String)) : StreamEvent :=
  StreamEvent.tool_call tc.id tc.name fields

/-- The tool-result message appended to the transient list for one call:
`{"role": "tool", "tool_call_id": tc.id, "content": str(result)}`. -/
def tool_result_message (env : AgentEnv) (user_id : String)
    (tc : ToolCallData) (fields : List (String × String)) : Msg :=
  { role := "tool"
    content := some (execute_tool env user_id tc.name fields)
    tool_call_id := some tc.id }

/-- Process the dispatch loop `for tc in tool_calls_data:` — yields the
`tool_call` event and appends the tool-result message per call, in call
order.  `json.loads(tc.arguments)` in the event yield sits outside the
inner `try`, so malformed arguments raise to the round-level handler:
the third component reports that exception when it happens. -/
def dispatch_calls (env : AgentEnv) (user_id : String) :
    List ToolCallData → List StreamEvent × List Msg × Option String
  | [] => ([], [], none)
  | tc :: rest =>
    match tc.arguments with
    | ToolArgs.malformed raw => ([], [], some ("Expecting value: " ++ raw))
    | ToolArgs.parsed fields =>
      let ev := tool_call_event tc fields
      let msg := tool_result_message env user_id tc fields
      let r := dispatch_calls env user_id rest
      (ev :: r.1, msg :: r.2.1, r.2.2)

/-- The assistant message appended to the transient list before dispatch:
content is `full_content if full_content else None`, plus the collected
tool-call list. -/
def assistant_tool_message (chunks : List String)
    (tcs : List ToolCallData) : Msg :=
  { role := "assistant"
    content :=
      if full_content_of chunks != "" then some (full_content_of chunks)
      else none
    tool_calls := some tcs }

/-- Result of one iteration of the tool-execution loop. -/
inductive RoundOutcome where
  | halt (events : List StreamEvent) (session : ChatSession)
  | step (events : List StreamEvent) (messages : List Msg)

/-- One iteration of the `for iteration in range(max_iterations)` body:
a gateway error yields `error` and breaks with the session untouched; a
reply without tool calls stores the assistant content in the session and
breaks; a reply with tool calls dispatches them and extends the transient
list (a malformed-arguments exception escapes to the round-level `except`,
which yields `error` and breaks, again with the session untouched). -/
def run_round (env : AgentEnv) (user_id : String) (rs : RoundScript)
    (messages : List Msg) (session : ChatSession) (now : Nat) :
    RoundOutcome :=
  match rs with
  | RoundScript.gatewayError chunks e =>
    RoundOutcome.halt (content_events chunks ++ [StreamEvent.error e])
      session
  | RoundScript.reply chunks tcs =>
    let cevs := content_events chunks
    if tcs.isEmpty then
      RoundOutcome.halt cevs
        (session.add_message now "assistant" (some (full_content_of chunks)))
    else
      let d := dispatch_calls env user_id tcs
      match d.2.2 with
      | some e =>
        RoundOutcome.halt (cevs ++ d.1 ++ [StreamEvent.error e]) session
      | none =>
        RoundOutcome.step (cevs ++ d.1)
          (messages ++ [assistant_tool_message chunks tcs] ++ d.2.1)

/-- Constant `max_iterations` in `process_chat_stream`. -/
def max_iterations : Nat := 5

/-- The tool-execution loop: runs rounds until one halts or the round
budget is exhausted.  Returns the yielded events, the session as left by
the loop, and how many model calls were made (each logged iteration). -/
def agent_loop (env : AgentEnv) (user_id : String)
    (script : Nat → RoundScript) (round : Nat) (fuel : Nat)
    (messages : List Msg) (session : ChatSession) (now : Nat) :
    List StreamEvent × ChatSession × Nat :=
  match fuel with
  | 0 => ([], session, 0)
  | Nat.succ f =>
    match run_round env user_id (script round) messages session now with
    | RoundOutcome.halt evs s => (evs, s, 1)
    | RoundOutcome.step evs msgs =>
      let r := agent_loop env user_id script (round + 1) f msgs session now
      (evs ++ r.1, r.2.1, r.2.2 + 1)

/-- What a whole call of `process_chat_stream` produces: the event stream,
the updated store, the session the turn used (none when the configuration
check aborted before session creation) and the number of model calls. -/
structure ChatResult where
  events : List StreamEvent
  store : Store
  session : Option ChatSession
  rounds : Nat

/-- Write the turn's final session back over its slot in the store
(Python mutates the stored object in place). -/
def store_update (store : Store) (s : ChatSession) : Store :=
  store.map (fun p => if p.1 == s.session_id then (p.1, s) else p)

/-- Model of `process_chat_stream(message, user_id, session_id)`, run against a
round script describing the model's behaviour: configuration check, then
get-or-create session, append the user message, yield the first `content`
event carrying the session id, run the tool-execution loop over
`[system] + session.get_messages_for_api()`, and always yield `done`
last. -/
def process_chat_stream (env : AgentEnv) (store : Store) (now : Nat)
    (fresh_id : String) (message : String) (user_id : String)
    (session_id : Option String) (script : Nat → RoundScript) :
    ChatResult :=
  if !env.openai_key_set then
    { events :=
        [StreamEvent.error "AI features not available: OPENAI_API_KEY is not set",
         StreamEvent.done]
      store := store
      session := none
      rounds := 0 }
  else
    let r0 := get_or_create_session store now user_id session_id fresh_id
    let session := r0.1.add_message now "user" (some message)
    let firstEv := StreamEvent.content "" (some session.session_id)
    let messages := systemMessage :: session.get_messages_for_api
    let r := agent_loop env user_id script 0 max_iterations messages
      session now
    { events := firstEv :: (r.1 ++ [StreamEvent.done])
      store := store_update r0.2 r.2.1
      session := some r.2.1
      rounds := r.2.2 }

/-! ## Request validation (`routes/chat.py` vs `app/ai/models.py`) -/

/-- Validation of `ChatRequest` as defined in `routes/chat.py` and used by the
`POST /api/chat` endpoint: `message : str` with no constraints, so pydantic
validation accepts every string. -/
def routes_ChatRequest_valid (message : String) : Bool :=
  let _ := message
  true

/-- Validation of `ChatRequest` as defined in `app/ai/models.py`:
`message: str = Field(..., min_length=1, max_length=1000)`. -/
def ai_models_ChatRequest_valid (message : String) : Bool :=
  decide (1 ≤ message.length) && decide (message.length ≤ 1000)

/-! ## Concrete fixtures used by counterexamples and witnesses -/

/-- Environment with the API key set and no registered handlers. -/
def no_tools_env : AgentEnv :=
  { openai_key_set := true, handlers := fun _ => none }

/-- A handler whose result records which `user_id` binding it ran with. -/
def echo_handler : Handler :=
  fun uid _ => Except.ok ("ran with " ++ uid)

/-- Environment registering `echo_handler` under the name `echo`. -/
def echo_env : AgentEnv :=
  { openai_key_set := true
    handlers := fun n => if n == "echo" then some echo_handler else none }

/-- Script: the model answers with plain content in every round. -/
def plain_script : Nat → RoundScript :=
  fun _ => RoundScript.reply ["hello"] []

/-- Script: one `echo` tool call in round 0, then a plain answer. -/
def one_tool_script : Nat → RoundScript := fun n =>
  if n == 0 then
    RoundScript.reply []
      [{ id := "call1", name := "echo"
         arguments := ToolArgs.parsed [("text", "x")] }]
  else RoundScript.reply ["done"] []

/-- Script: the model requests a (unregistered) tool call in every round. -/
def always_tool_script : Nat → RoundScript := fun _ =>
  RoundScript.reply []
    [{ id := "c", name := "foo", arguments := ToolArgs.parsed [] }]

/-- Script: the gateway raises in round 0 after one content chunk. -/
def failing_script : Nat → RoundScript :=
  fun _ => RoundScript.gatewayError ["partial answer"] "connection reset"

/-- A handler that always raises. -/
def boom_handler : Handler :=
  fun _ _ => Except.error "boom"

/-- Environment registering `boom_handler` under the name `boom`. -/
def boom_env : AgentEnv :=
  { openai_key_set := true
    handlers := fun n => if n == "boom" then some boom_handler else none }

/-- Did `json.loads` succeed on these arguments? -/
def ToolArgs.isParsed : ToolArgs → Bool
  | .parsed _ => true
  | .malformed _ => false

/-- The parsed field list (empty for malformed arguments). -/
def ToolArgs.fields : ToolArgs → List (String × String)
  | .parsed f => f
  | .malformed _ => []

/-- The events yielded by one round, whichever way it ended. -/
def RoundOutcome.events : RoundOutcome → List StreamEvent
  | .halt evs _ => evs
  | .step evs _ => evs

/-- Well-formedness of a stored session history: every entry has role
`user` or `assistant` and carries no `tool_calls` key. -/
def session_wf (s : ChatSession) : Bool :=
  s.messages.all
    (fun m => (m.role == "user" || m.role == "assistant")
      && m.tool_calls.isNone)

/-- A session already holding 21 user messages (the trim threshold). -/
def full_session : ChatSession :=
  { session_id := "s-full"
    user_id := "u1"
    messages := List.replicate 21 (mkMessage "user" (some "m") none)
    created_at := 0
    last_activity := 0 }

/-- A stored, unexpired session owned by `u1`. -/
def sample_session : ChatSession :=
  { session_id := "sid1"
    user_id := "u1"
    messages := []
    created_at := 0
    last_activity := 5 }

/-- Two collected tool calls: one for the raising handler, one unknown. -/
def c4tcs : List ToolCallData :=
  [{ id := "c1", name := "boom", arguments := ToolArgs.parsed [] },
   { id := "c2", name := "nope", arguments := ToolArgs.parsed [] }]

/-! ## Helper lemmas about the session store -/

theorem lookup_some_mem {l : List (String × ChatSession)} {k : String}
    {v : ChatSession} (h : l.lookup k = some v) : (k, v) ∈ l := by
  induction l with
  | nil => simp [List.lookup] at h
  | cons p t ih =>
    obtain ⟨a, b⟩ := p
    rw [List.lookup] at h
    cases hk : k == a with
    | true =>
      simp only [hk] at h
      obtain rfl : b = v := by injection h
      obtain rfl : k = a := beq_iff_eq.mp hk
      exact List.mem_cons_self _ _
    | false =>
      simp only [hk] at h
      exact List.mem_cons_of_mem _ (ih h)

theorem lookup_eq_none_of_not_mem_keys {l : List (String × ChatSession)}
    {k : String} (h : k ∉ l.map Prod.fst) : l.lookup k = none := by
  induction l with
  | nil => rfl
  | cons p t ih =>
    obtain ⟨a, b⟩ := p
    simp only [List.map_cons, List.mem_cons, not_or] at h
    have hk : (k == a) = false := beq_eq_false_iff_ne.mpr h.1
    rw [List.lookup]
    simp only [hk]
    exact ih h.2

theorem lookup_filter_none {l : List (String × ChatSession)}
    {p : String × ChatSession → Bool} {k : String}
    (h : l.lookup k = none) : (l.filter p).lookup k = none := by
  induction l with
  | nil => rfl
  | cons q t ih =>
    obtain ⟨a, b⟩ := q
    rw [List.lookup] at h
    cases hk : k == a with
    | true =>
      simp only [hk] at h
      exact absurd h (by simp)
    | false =>
      simp only [hk] at h
      rw [List.filter_cons]
      cases hp : p (a, b)
      · simp only [Bool.false_eq_true, if_false]
        exact ih h
      · simp only [if_true]
        rw [List.lookup]
        simp only [hk]
        exact ih h

theorem lookup_filter_nodup {l : List (String × ChatSession)}
    {p : String × ChatSession → Bool} {k : String} {v : ChatSession}
    (hnd : (l.map Prod.fst).Nodup) (h : l.lookup k = some v) :
    (l.filter p).lookup k = if p (k, v) then some v else none := by
  induction l with
  | nil => simp [List.lookup] at h
  | cons q t ih =>
    obtain ⟨a, b⟩ := q
    rw [List.map_cons, List.nodup_cons] at hnd
    rw [List.lookup] at h
    cases hk : k == a with
    | true =>
      simp only [hk] at h
      obtain rfl : b = v := by injection h
      obtain rfl : k = a := beq_iff_eq.mp hk
      have ht : t.lookup k = none := lookup_eq_none_of_not_mem_keys hnd.1
      rw [List.filter_cons]
      cases hp : p (k, b)
      · simp only [hp, Bool.false_eq_true, if_false]
        exact lookup_filter_none ht
      · simp only [hp, if_true]
        rw [List.lookup]
        simp only [hk]
    | false =>
      simp only [hk] at h
      rw [List.filter_cons]
      cases hp : p (a, b)
      · simp only [Bool.false_eq_true, if_false]
        exact ih hnd.2 h
      · simp only [if_true]
        rw [List.lookup]
        simp only [hk]
        exact ih hnd.2 h

theorem cleanup_lookup_some {store : List (String × ChatSession)} {now : Nat}
    {k : String} {v : ChatSession}
    (hnd : (store.map Prod.fst).Nodup) (h : store.lookup k = some v) :
    (cleanup_expired_sessions store now).lookup k =
      if v.is_expired now 24 then none else some v := by
  rw [cleanup_expired_sessions,
    lookup_filter_nodup (p := fun p => !(p.2.is_expired now 24)) hnd h]
  cases hexp : v.is_expired now 24 <;> simp [hexp]

theorem cleanup_lookup_none {store : List (String × ChatSession)} {now : Nat}
    {k : String} (h : store.lookup k = none) :
    (cleanup_expired_sessions store now).lookup k = none :=
  lookup_filter_none h

/-! ## Helper lemmas about the orchestration loop -/

theorem done_not_mem_content_events (chunks : List String) :
    StreamEvent.done ∉ content_events chunks := by
  intro h
  rw [content_events] at h
  obtain ⟨c, _, hc⟩ := List.mem_map.mp h
  exact StreamEvent.noConfusion hc

theorem done_not_mem_dispatch (env : AgentEnv) (user_id : String)
    (tcs : List ToolCallData) :
    StreamEvent.done ∉ (dispatch_calls env user_id tcs).1 := by
  induction tcs with
  | nil => simp [dispatch_calls]
  | cons tc rest ih =>
    cases harg : tc.arguments with
    | malformed raw => simp [dispatch_calls, harg]
    | parsed fields =>
      simp only [dispatch_calls, harg, List.mem_cons, not_or]
      exact ⟨fun hc => StreamEvent.noConfusion hc, ih⟩

theorem done_not_mem_run_round (env : AgentEnv) (user_id : String)
    (rs : RoundScript) (messages : List Msg) (session : ChatSession)
    (now : Nat) :
    StreamEvent.done ∉ (run_round env user_id rs messages session now).events := by
  cases rs with
  | gatewayError chunks e =>
    simp only [run_round, RoundOutcome.events, List.mem_append, not_or]
    exact ⟨done_not_mem_content_events chunks,
      by intro h; simp at h⟩
  | reply chunks tcs =>
    rw [run_round]
    cases he : tcs.isEmpty
    · simp only [Bool.false_eq_true, if_false]
      cases hd : (dispatch_calls env user_id tcs).2.2 with
      | some e =>
        simp only [hd, RoundOutcome.events, List.mem_append, not_or]
        exact ⟨⟨done_not_mem_content_events chunks,
          done_not_mem_dispatch env user_id tcs⟩, by intro h; simp at h⟩
      | none =>
        simp only [hd, RoundOutcome.events, List.mem_append, not_or]
        exact ⟨done_not_mem_content_events chunks,
          done_not_mem_dispatch env user_id tcs⟩
    · simp only [if_true]
      exact done_not_mem_content_events chunks

theorem done_not_mem_agent_loop (env : AgentEnv) (user_id : String)
    (script : Nat → RoundScript) (round fuel : Nat) (messages : List Msg)
    (session : ChatSession) (now : Nat) :
    StreamEvent.done ∉
      (agent_loop env user_id script round fuel messages session now).1 := by
  induction fuel generalizing round messages with
  | zero => simp [agent_loop]
  | succ f ih =>
    rw [agent_loop]
    have hrr := done_not_mem_run_round env user_id (script round) messages
      session now
    cases hr : run_round env user_id (script round) messages session now with
    | halt evs s =>
      rw [hr] at hrr
      simpa [RoundOutcome.events] using hrr
    | step evs msgs =>
      rw [hr] at hrr
      simp only [RoundOutcome.events] at hrr
      simp only [List.mem_append, not_or]
      exact ⟨hrr, ih (round + 1) msgs⟩

theorem agent_loop_rounds_le (env : AgentEnv) (user_id : String)
    (script : Nat → RoundScript) (round fuel : Nat) (messages : List Msg)
    (session : ChatSession) (now : Nat) :
    (agent_loop env user_id script round fuel messages session now).2.2
      ≤ fuel := by
  induction fuel generalizing round messages with
  | zero => simp [agent_loop]
  | succ f ih =>
    rw [agent_loop]
    cases hr : run_round env user_id (script round) messages session now with
    | halt evs s => simp
    | step evs msgs =>
      simpa using Nat.succ_le_succ (ih (round + 1) msgs)

theorem dispatch_calls_parsed (env : AgentEnv) (user_id : String)
    (tcs : List ToolCallData)
    (hp : ∀ tc ∈ tcs, tc.arguments.isParsed = true) :
    dispatch_calls env user_id tcs =
      (tcs.map (fun tc => tool_call_event tc tc.arguments.fields),
       tcs.map (fun tc => tool_result_message env user_id tc
         tc.arguments.fields),
       none) := by
  induction tcs with
  | nil => rfl
  | cons tc rest ih =>
    have h1 := hp tc (List.mem_cons_self _ _)
    cases harg : tc.arguments with
    | malformed raw =>
      rw [harg] at h1
      simp [ToolArgs.isParsed] at h1
    | parsed fields =>
      have ih2 := ih (fun x hx => hp x (List.mem_cons_of_mem _ hx))
      simp [dispatch_calls, harg, ih2, ToolArgs.fields]

theorem run_round_step (env : AgentEnv) (user_id : String)
    (chunks : List String) (tcs : List ToolCallData) (messages : List Msg)
    (session : ChatSession) (now : Nat) (hne : tcs ≠ [])
    (hp : ∀ tc ∈ tcs, tc.arguments.isParsed = true) :
    run_round env user_id (RoundScript.reply chunks tcs) messages session
        now =
      RoundOutcome.step
        (content_events chunks
          ++ tcs.map (fun tc => tool_call_event tc tc.arguments.fields))
        (messages ++ [assistant_tool_message chunks tcs]
          ++ tcs.map (fun tc => tool_result_message env user_id tc
            tc.arguments.fields)) := by
  have hie : tcs.isEmpty = false := by
    cases tcs with
    | nil => exact absurd rfl hne
    | cons a l => rfl
  simp only [run_round, hie, Bool.false_eq_true, if_false,
    dispatch_calls_parsed env user_id tcs hp]

theorem no_error_content_events (chunks : List String) :
    (content_events chunks).all (fun e => !e.isError) = true := by
  rw [List.all_eq_true]
  intro e he
  rw [content_events] at he
  obtain ⟨c, _, hc⟩ := List.mem_map.mp he
  rw [← hc]
  rfl

theorem no_error_tool_call_events (tcs : List ToolCallData)
    (f : ToolCallData → List (String × String)) :
    ((tcs.map (fun tc => tool_call_event tc (f tc))).all
      (fun e => !e.isError)) = true := by
  rw [List.all_eq_true]
  intro e he
  obtain ⟨tc, _, hc⟩ := List.mem_map.mp he
  rw [← hc]
  rfl

theorem mem_trimmed {msgs : List Msg} {x : Msg}
    (hx : x ∈ (if msgs.length > 21 then
      msgs.take 1 ++ msgs.drop (msgs.length - 20) else msgs)) :
    x ∈ msgs := by
  by_cases h : msgs.length > 21
  · rw [if_pos h] at hx
    rcases List.mem_append.mp hx with h1 | h1
    · exact List.mem_of_mem_take h1
    · exact List.mem_of_mem_drop h1
  · rwa [if_neg h] at hx

theorem session_wf_add_message {s : ChatSession} (now : Nat) {role : String}
    (content : Option String) (hrole : role = "user" ∨ role = "assistant")
    (hwf : session_wf s = true) :
    session_wf (s.add_message now role content) = true := by
  rw [session_wf, List.all_eq_true]
  rw [session_wf, List.all_eq_true] at hwf
  intro x hx
  rw [ChatSession.add_message] at hx
  simp only at hx
  have hx2 : x ∈ s.messages ++ [mkMessage role content none] :=
    mem_trimmed hx
  rcases List.mem_append.mp hx2 with h1 | h1
  · exact hwf x h1
  · have : x = mkMessage role content none := by simpa using h1
    rw [this]
    rcases hrole with h | h <;> simp [mkMessage, h]

theorem run_round_halt_wf (env : AgentEnv) (user_id : String)
    (rs : RoundScript) (messages : List Msg) (session : ChatSession)
    (now : Nat) (hwf : session_wf session = true) :
    ∀ evs s, run_round env user_id rs messages session now =
      RoundOutcome.halt evs s → session_wf s = true := by
  intro evs s h
  cases rs with
  | gatewayError chunks e =>
    rw [run_round] at h
    injection h with _ h2
    rw [← h2]
    exact hwf
  | reply chunks tcs =>
    rw [run_round] at h
    cases he : tcs.isEmpty
    · rw [he] at h
      simp only [Bool.false_eq_true, if_false] at h
      cases hd : (dispatch_calls env user_id tcs).2.2 with
      | some e =>
        rw [hd] at h
        injection h with _ h2
        rw [← h2]
        exact hwf
      | none =>
        rw [hd] at h
        exact RoundOutcome.noConfusion h
    · rw [he] at h
      simp only [if_true] at h
      injection h with _ h2
      rw [← h2]
      exact session_wf_add_message now _ (Or.inr rfl) hwf

theorem agent_loop_wf (env : AgentEnv) (user_id : String)
    (script : Nat → RoundScript) (round fuel : Nat) (messages : List Msg)
    (session : ChatSession) (now : Nat)
    (hwf : session_wf session = true) :
    session_wf
      (agent_loop env user_id script round fuel messages session now).2.1
      = true := by
  induction fuel generalizing round messages with
  | zero => simpa [agent_loop] using hwf
  | succ f ih =>
    rw [agent_loop]
    cases hr : run_round env user_id (script round) messages session now with
    | halt evs s =>
      exact run_round_halt_wf env user_id (script round) messages session
        now hwf evs s hr
    | step evs msgs => exact ih (round + 1) msgs

theorem get_or_create_cases (store : Store) (now : Nat)
    (user_id : String) (session_id : Option String) (fresh_id : String) :
    (get_or_create_session store now user_id session_id fresh_id).1 =
        ChatSession.init fresh_id user_id now
      ∨ ∃ k, (k, (get_or_create_session store now user_id session_id
          fresh_id).1) ∈ store := by
  rw [get_or_create_session.eq_def]
  cases session_id with
  | none => left; rfl
  | some sid =>
    by_cases hsid : sid = ""
    · simp only [hsid, if_pos rfl]
      left; rfl
    · simp only [if_neg hsid]
      cases hlk : (cleanup_expired_sessions store now).lookup sid with
      | none => left; rfl
      | some s =>
        cases hcond : (s.user_id == user_id && !(s.is_expired now 24)) with
        | false =>
          simp only [hcond, Bool.false_eq_true, if_false]
          left; trivial
        | true =>
          simp only [hcond, if_true]
          right
      -- membership in the filtered store implies membership in the store
          exact ⟨sid, (List.mem_filter.mp (lookup_some_mem hlk)).1⟩

theorem get_or_create_wf (store : Store) (now : Nat) (user_id : String)
    (session_id : Option String) (fresh_id : String)
    (hstore : ∀ p ∈ store, session_wf p.2 = true) :
    session_wf
      (get_or_create_session store now user_id session_id fresh_id).1
      = true := by
  rcases get_or_create_cases store now user_id session_id fresh_id with
    h | ⟨k, hk⟩
  · rw [h]; rfl
  · exact hstore _ hk

theorem agent_loop_always_tool (env : AgentEnv) (user_id : String)
    (script : Nat → RoundScript) (round fuel : Nat) (messages : List Msg)
    (session : ChatSession) (now : Nat)
    (hs : ∀ i, ∃ chunks tcs,
      script i = RoundScript.reply chunks tcs ∧ tcs ≠ [] ∧
        ∀ tc ∈ tcs, tc.arguments.isParsed = true) :
    (agent_loop env user_id script round fuel messages session now).2.2
        = fuel
      ∧ (agent_loop env user_id script round fuel messages session
          now).1.all (fun e => !e.isError) = true
      ∧ (agent_loop env user_id script round fuel messages session
          now).2.1 = session := by
  induction fuel generalizing round messages with
  | zero => simp [agent_loop]
  | succ f ih =>
    obtain ⟨chunks, tcs, hscr, hne, hp⟩ := hs round
    rw [agent_loop, hscr,
      run_round_step env user_id chunks tcs messages session now hne hp]
    obtain ⟨ih1, ih2, ih3⟩ := ih (round + 1)
      (messages ++ [assistant_tool_message chunks tcs]
        ++ tcs.map (fun tc => tool_result_message env user_id tc
          tc.arguments.fields))
    refine ⟨by simpa using ih1, ?_, by simpa using ih3⟩
    simp only [List.all_append, no_error_content_events,
      no_error_tool_call_events, Bool.true_and, ih2]

/-- The session a finished turn stores is well-formed whenever every
session already in the store is. -/
theorem process_session_wf (env : AgentEnv) (store : Store) (now : Nat)
    (fresh_id message user_id : String) (session_id : Option String)
    (script : Nat → RoundScript) (s : ChatSession)
    (hstore : ∀ p ∈ store, session_wf p.2 = true)
    (hs : (process_chat_stream env store now fresh_id message user_id
      session_id script).session = some s) :
    session_wf s = true := by
  rw [process_chat_stream] at hs
  cases hcfg : env.openai_key_set with
  | false =>
    rw [hcfg] at hs
    simp at hs
  | true =>
    rw [hcfg] at hs
    simp only [Bool.not_true, Bool.false_eq_true, if_false,
      Option.some.injEq] at hs
    have hwf0 : session_wf
        ((get_or_create_session store now user_id session_id fresh_id).1)
        = true :=
      get_or_create_wf store now user_id session_id fresh_id hstore
    have hwf1 : session_wf
        ((get_or_create_session store now user_id session_id
          fresh_id).1.add_message now "user" (some message)) = true :=
      session_wf_add_message now (some message) (Or.inl rfl) hwf0
    rw [← hs]
    exact agent_loop_wf env user_id script 0 max_iterations _ _ now hwf1

/-! ## Claims -/

/-- Claim C1, counterexample: after one full turn of a fresh session the
stored history starts with the user message — `messages[0]` is not the
system prompt (the session never stores a system entry). -/
theorem C1_counterexample :
    ((process_chat_stream no_tools_env [] 0 "s1" "hi" "u1" none
        plain_script).session.map (fun s => s.messages.map Msg.role))
      = some ["user", "assistant"]
    ∧ ((process_chat_stream no_tools_env [] 0 "s1" "hi" "u1" none
        plain_script).session.map
          (fun s => s.messages.head?.map Msg.role))
      ≠ some (some "system") := by
  refine ⟨rfl, ?_⟩
  decide

/-- Claim C1 (amended): `add_message` keeps the stored history at no more
than 21 entries, always retains entry 0, and on overflow trims to entry 0
plus the most recent 20 entries — but entry 0 is the earliest retained
stored message, not the system prompt. -/
theorem C1_trim_invariant (s : ChatSession) (now : Nat) (role : String)
    (content : Option String) (tcs : Option (List ToolCallData))
    (h : s.messages.length ≤ 21) :
    ((s.add_message now role content tcs).messages.length ≤ 21)
    ∧ ((s.add_message now role content tcs).messages.head? =
        if s.messages.isEmpty then some (mkMessage role content tcs)
        else s.messages.head?)
    ∧ (s.messages.length = 21 →
        (s.add_message now role content tcs).messages =
          s.messages.take 1
            ++ (s.messages.drop 2 ++ [mkMessage role content tcs])) := by
  by_cases h21 : s.messages.length = 21
  · cases hsm : s.messages with
    | nil => rw [hsm] at h21; simp at h21
    | cons a t =>
      have ht : t.length = 20 := by
        rw [hsm] at h21
        simpa using h21
      have hgt : ((a :: t) ++ [mkMessage role content tcs]).length > 21 := by
        simp [ht]
      rw [ChatSession.add_message]
      simp only [hsm, if_pos hgt]
      have hlen : ((a :: t) ++ [mkMessage role content tcs]).length = 22 := by
        simp [ht]
      refine ⟨?_, ?_, ?_⟩
      · rw [hlen]
        simp [ht]
      · rw [hlen]
        simp
      · intro _
        rw [hlen]
        show [a] ++ _ = [a] ++ _
        simp [List.drop_append_eq_append_drop, ht]
  · have hle : ¬ ((s.messages ++ [mkMessage role content tcs]).length > 21) := by
      simp only [List.length_append, List.length_singleton]
      omega
    rw [ChatSession.add_message]
    simp only [if_neg hle]
    refine ⟨?_, ?_, fun hc => absurd hc h21⟩
    · simp only [List.length_append, List.length_singleton]
      omega
    · cases hsm : s.messages with
      | nil => simp
      | cons a t => simp

/-- Witness for C1: a session already holding 21 messages is trimmed back
to 21 entries, head retained, by the next `add_message`. -/
theorem C1_trim_invariant_witness :
    full_session.messages.length ≤ 21
    ∧ (full_session.add_message 1 "user" (some "new") none).messages.length
        ≤ 21
    ∧ (full_session.add_message 1 "user" (some "new") none).messages =
        full_session.messages.take 1
          ++ (full_session.messages.drop 2
            ++ [mkMessage "user" (some "new") none]) := by
  refine ⟨by decide, ?_, ?_⟩
  · exact (C1_trim_invariant full_session 1 "user" (some "new") none
      (by decide)).1
  · exact (C1_trim_invariant full_session 1 "user" (some "new") none
      (by decide)).2.2 (by decide)

/-- Claim C6, counterexample: when the model arguments themselves carry a
`user_id` field the handler does not run at all — the duplicate keyword
raises, and the dispatch result is the tool-execution-error text, not the
output the handler would have produced with the authenticated id. -/
theorem C6_counterexample :
    echo_handler "u1" [("user_id", "intruder")] = Except.ok "ran with u1"
    ∧ execute_tool echo_env "u1" "echo" [("user_id", "intruder")]
        = "Tool execution error: got multiple values for keyword argument user_id"
    ∧ execute_tool echo_env "u1" "echo" [("user_id", "intruder")]
        ≠ "ran with u1" := by
  refine ⟨rfl, rfl, ?_⟩
  decide

/-- Claim C6 (amended): the handler never receives a model-supplied
`user_id`: if the arguments carry a `user_id` field the call raises a
duplicate-keyword error, converted to an error-text tool result, and the
handler body never runs; otherwise the handler runs with the
authenticated `user_id`. -/
theorem C6_user_id_injection (env : AgentEnv) (user_id name : String)
    (args : List (String × String)) (h : Handler)
    (hh : env.handlers name = some h) :
    (args.any (fun kv => kv.1 == "user_id") = true →
      execute_tool env user_id name args =
        "Tool execution error: got multiple values for keyword argument user_id")
    ∧ (args.any (fun kv => kv.1 == "user_id") = false →
      execute_tool env user_id name args =
        match h user_id args with
        | Except.ok r => r
        | Except.error e => "Tool execution error: " ++ e) := by
  constructor
  · intro ha
    simp [execute_tool, hh, call_handler, ha]
  · intro ha
    simp only [execute_tool, hh, call_handler, ha, Bool.false_eq_true,
      if_false]

/-- Witness for C6: a poisoned argument list yields the error text; a
clean one reaches the handler, which sees the authenticated id. -/
theorem C6_user_id_injection_witness :
    execute_tool echo_env "u1" "echo" [("text", "x"), ("user_id", "evil")]
        = "Tool execution error: got multiple values for keyword argument user_id"
    ∧ execute_tool echo_env "u1" "echo" [("text", "x")] = "ran with u1" := by
  have hreg : echo_env.handlers "echo" = some echo_handler := rfl
  refine ⟨?_, ?_⟩
  · exact (C6_user_id_injection echo_env "u1" "echo"
      [("text", "x"), ("user_id", "evil")] echo_handler hreg).1 (by decide)
  · exact (C6_user_id_injection echo_env "u1" "echo"
      [("text", "x")] echo_handler hreg).2 (by decide)

/-- Claim C9: the endpoint accepts every message string — the route
defines its own unconstrained `ChatRequest`, while the 1–1000 character
validation the claim describes lives (unused by the route) in
`app/ai/models.py`. -/
theorem C9_message_validation :
    routes_ChatRequest_valid "" = true
    ∧ ai_models_ChatRequest_valid "" = false
    ∧ routes_ChatRequest_valid (String.mk (List.replicate 1001 'a')) = true
    ∧ ai_models_ChatRequest_valid (String.mk (List.replicate 1001 'a'))
        = false
    ∧ ai_models_ChatRequest_valid "hi" = true := by
  refine ⟨rfl, by decide, rfl, ?_, by decide⟩
  have hlen : (String.mk (List.replicate 1001 'a')).length = 1001 := by
    show (List.replicate 1001 'a').length = 1001
    exact List.length_replicate 1001 'a'
  rw [ai_models_ChatRequest_valid, hlen]
  decide

/-- Claim C2, counterexample: a turn whose first round carries a tool call
(visible as the emitted `tool_call` event) finishes with a stored session
holding only the user message and the final assistant message — the
assistant-with-tool-calls and tool-result messages were never appended to
the session. -/
theorem C2_counterexample :
    (process_chat_stream echo_env [] 0 "s1" "hi" "u1" none
        one_tool_script).events
      = [StreamEvent.content "" (some "s1"),
         StreamEvent.tool_call "call1" "echo" [("text", "x")],
         StreamEvent.content "done" none, StreamEvent.done]
    ∧ ((process_chat_stream echo_env [] 0 "s1" "hi" "u1" none
        one_tool_script).session.map
          (fun s => s.messages.map
            (fun m => (m.role, m.tool_calls, m.tool_call_id))))
      = some [("user", none, none), ("assistant", none, none)] := by
  exact ⟨rfl, rfl⟩

/-- Claim C2 (amended): in a round with tool calls, the assistant message
carrying the tool-call list, followed by one tool-result message per call
in call order, is appended to the transient per-turn message list before
the next round — while the stored session receives no tool-role and no
tool-call-bearing entry. -/
theorem C2_transient_append (env : AgentEnv) (user_id : String)
    (chunks : List String) (tcs : List ToolCallData) (messages : List Msg)
    (session : ChatSession) (now : Nat) (hne : tcs ≠ [])
    (hp : ∀ tc ∈ tcs, tc.arguments.isParsed = true) :
    run_round env user_id (RoundScript.reply chunks tcs) messages session
        now
      = RoundOutcome.step
          (content_events chunks
            ++ tcs.map (fun tc => tool_call_event tc tc.arguments.fields))
          (messages ++ [assistant_tool_message chunks tcs]
            ++ tcs.map (fun tc => tool_result_message env user_id tc
              tc.arguments.fields))
    ∧ ∀ (store : Store) (fresh_id message : String)
        (session_id : Option String) (script : Nat → RoundScript)
        (s : ChatSession),
        (∀ p ∈ store, session_wf p.2 = true) →
        (process_chat_stream env store now fresh_id message user_id
          session_id script).session = some s →
        s.messages.all
          (fun m => m.role != "tool" && m.tool_calls.isNone) = true := by
  constructor
  · exact run_round_step env user_id chunks tcs messages session now hne hp
  · intro store fresh_id message session_id script s hstore hs
    have hwf := process_session_wf env store now fresh_id message user_id
      session_id script s hstore hs
    rw [session_wf, List.all_eq_true] at hwf
    rw [List.all_eq_true]
    intro m hm
    have h1 := hwf m hm
    rw [Bool.and_eq_true] at h1
    rw [Bool.and_eq_true]
    refine ⟨?_, h1.2⟩
    rcases (Bool.or_eq_true _ _).mp h1.1 with h2 | h2
    · rw [beq_iff_eq.mp h2]; rfl
    · rw [beq_iff_eq.mp h2]; rfl

/-- Witness for C2 (amended): one concrete tool round extends the
transient list with the assistant-with-tool-calls message and both tool
results, and a finished turn stores no tool entries. -/
theorem C2_transient_append_witness :
    run_round boom_env "u1" (RoundScript.reply [] c4tcs) []
        (ChatSession.init "s0" "u1" 0) 0
      = RoundOutcome.step
          (content_events []
            ++ c4tcs.map (fun tc => tool_call_event tc tc.arguments.fields))
          ([] ++ [assistant_tool_message [] c4tcs]
            ++ c4tcs.map (fun tc => tool_result_message boom_env "u1" tc
              tc.arguments.fields)) := by
  exact (C2_transient_append boom_env "u1" [] c4tcs []
    (ChatSession.init "s0" "u1" 0) 0 (by decide) (by decide)).1

/-- Claim C3: every stream `process_chat_stream` produces — success,
configuration error, gateway error, or round-limit exhaustion — contains
exactly one `done` event, and it is the last event. -/
theorem C3_single_done (env : AgentEnv) (store : Store) (now : Nat)
    (fresh_id message user_id : String) (session_id : Option String)
    (script : Nat → RoundScript) :
    ∃ evs, (process_chat_stream env store now fresh_id message user_id
        session_id script).events = evs ++ [StreamEvent.done]
      ∧ StreamEvent.done ∉ evs := by
  rw [process_chat_stream]
  cases hcfg : env.openai_key_set with
  | false =>
    simp only [hcfg, Bool.not_false, if_true]
    exact ⟨[StreamEvent.error
      "AI features not available: OPENAI_API_KEY is not set"], rfl,
      by simp⟩
  | true =>
    simp only [hcfg, Bool.not_true, Bool.false_eq_true, if_false]
    refine ⟨StreamEvent.content ""
        (some (((get_or_create_session store now user_id session_id
          fresh_id).1.add_message now "user" (some message)).session_id))
      :: (agent_loop env user_id script 0 max_iterations
          (systemMessage :: ((get_or_create_session store now user_id
            session_id fresh_id).1.add_message now "user"
              (some message)).get_messages_for_api)
          ((get_or_create_session store now user_id session_id
            fresh_id).1.add_message now "user" (some message)) now).1,
      ?_, ?_⟩
    · simp
    · intro hmem
      rcases List.mem_cons.mp hmem with h | h
      · exact StreamEvent.noConfusion h
      · exact done_not_mem_agent_loop env user_id script 0 max_iterations
          _ _ now h

/-- Claim C4: with parseable arguments, a raising handler and an unknown
tool name are both recovered locally — the round continues with a `step`,
no stream-level `error` event is emitted, and the failure is fed back to
the model as an error-text tool result. -/
theorem C4_local_recovery (env : AgentEnv) (user_id : String)
    (chunks : List String) (tcs : List ToolCallData) (messages : List Msg)
    (session : ChatSession) (now : Nat) (hne : tcs ≠ [])
    (hp : ∀ tc ∈ tcs, tc.arguments.isParsed = true) :
    (run_round env user_id (RoundScript.reply chunks tcs) messages session
        now
      = RoundOutcome.step
          (content_events chunks
            ++ tcs.map (fun tc => tool_call_event tc tc.arguments.fields))
          (messages ++ [assistant_tool_message chunks tcs]
            ++ tcs.map (fun tc => tool_result_message env user_id tc
              tc.arguments.fields)))
    ∧ ((content_events chunks
        ++ tcs.map (fun tc => tool_call_event tc tc.arguments.fields)).all
          (fun e => !e.isError) = true)
    ∧ (∀ name args, env.handlers name = none →
        execute_tool env user_id name args = "Unknown tool: " ++ name)
    ∧ (∀ name args (h : Handler) e, env.handlers name = some h →
        call_handler h user_id args = Except.error e →
        execute_tool env user_id name args =
          "Tool execution error: " ++ e) := by
  refine ⟨run_round_step env user_id chunks tcs messages session now hne hp,
    ?_, ?_, ?_⟩
  · rw [List.all_append]
    rw [no_error_content_events, no_error_tool_call_events]
    rfl
  · intro name args hnone
    rw [execute_tool, hnone]
  · intro name args h e hsome herr
    rw [execute_tool, hsome]
    simp only [herr]

/-- Witness for C4: a round with a raising handler and an unknown tool
still steps to the next round, and both failures become error-text
results. -/
theorem C4_local_recovery_witness :
    (run_round boom_env "u1" (RoundScript.reply [] c4tcs) []
        (ChatSession.init "s0" "u1" 0) 0
      = RoundOutcome.step
          (content_events []
            ++ c4tcs.map (fun tc => tool_call_event tc tc.arguments.fields))
          ([] ++ [assistant_tool_message [] c4tcs]
            ++ c4tcs.map (fun tc => tool_result_message boom_env "u1" tc
              tc.arguments.fields)))
    ∧ execute_tool boom_env "u1" "boom" [] = "Tool execution error: boom"
    ∧ execute_tool boom_env "u1" "nah" [] = "Unknown tool: nah" := by
  have H := C4_local_recovery boom_env "u1" [] c4tcs []
    (ChatSession.init "s0" "u1" 0) 0 (by decide) (by decide)
  exact ⟨H.1, H.2.2.2 "boom" [] boom_handler "boom" rfl rfl,
    H.2.2.1 "nah" [] rfl⟩

/-- Claim C5: `get_or_create_session` returns the stored session exactly
when it exists, is owned by the caller and is unexpired; with an absent
id, a missing id, an expired session or an ownership mismatch it silently
returns a fresh session for the caller (never the foreign session, never
an error). -/
theorem C5_session_resolution (store : Store) (now : Nat)
    (user_id fresh_id : String) (hnd : (store.map Prod.fst).Nodup) :
    (∀ sid s, sid ≠ "" → store.lookup sid = some s →
      s.user_id = user_id → s.is_expired now 24 = false →
      (get_or_create_session store now user_id (some sid) fresh_id).1 = s)
    ∧ (∀ sid s, store.lookup sid = some s →
        s.user_id ≠ user_id ∨ s.is_expired now 24 = true →
        (get_or_create_session store now user_id (some sid) fresh_id).1 =
          ChatSession.init fresh_id user_id now)
    ∧ (∀ sid, store.lookup sid = none →
        (get_or_create_session store now user_id (some sid) fresh_id).1 =
          ChatSession.init fresh_id user_id now)
    ∧ ((get_or_create_session store now user_id none fresh_id).1 =
        ChatSession.init fresh_id user_id now) := by
  refine ⟨?_, ?_, ?_, rfl⟩
  · intro sid s hsid hlk huid hexp
    have hclean : (cleanup_expired_sessions store now).lookup sid
        = some s := by
      rw [cleanup_lookup_some hnd hlk, hexp]
      simp
    rw [get_or_create_session.eq_def]
    simp only [if_neg hsid, hclean, huid, hexp, beq_self_eq_true,
      Bool.not_false, Bool.and_self, if_true]
  · intro sid s hlk hor
    by_cases hsid : sid = ""
    · rw [get_or_create_session.eq_def]
      simp [hsid]
    · by_cases hexp : s.is_expired now 24 = true
      · have hclean : (cleanup_expired_sessions store now).lookup sid
            = none := by
          rw [cleanup_lookup_some hnd hlk, hexp]
          simp
        rw [get_or_create_session.eq_def]
        simp only [if_neg hsid, hclean]
      · have hexp2 : s.is_expired now 24 = false :=
          Bool.not_eq_true _ ▸ Bool.of_not_eq_true hexp
        have huid : s.user_id ≠ user_id := by
          rcases hor with h | h
          · exact h
          · exact absurd h hexp
        have hclean : (cleanup_expired_sessions store now).lookup sid
            = some s := by
          rw [cleanup_lookup_some hnd hlk, hexp2]
          simp
        have hbeq : (s.user_id == user_id) = false :=
          beq_eq_false_iff_ne.mpr huid
        rw [get_or_create_session.eq_def]
        simp only [if_neg hsid, hclean, hbeq, Bool.false_and,
          Bool.false_eq_true, if_false]
  · intro sid hlk
    by_cases hsid : sid = ""
    · rw [get_or_create_session.eq_def]
      simp [hsid]
    · have hclean : (cleanup_expired_sessions store now).lookup sid
          = none := cleanup_lookup_none hlk
      rw [get_or_create_session.eq_def]
      simp only [if_neg hsid, hclean]

/-- Witness for C5: an owned unexpired session is returned as stored; the
same id queried by a different user yields a fresh empty session. -/
theorem C5_session_resolution_witness :
    (get_or_create_session [("sid1", sample_session)] 6 "u1" (some "sid1")
        "f1").1 = sample_session
    ∧ (get_or_create_session [("sid1", sample_session)] 6 "u2"
        (some "sid1") "f1").1 = ChatSession.init "f1" "u2" 6 := by
  constructor
  · exact (C5_session_resolution [("sid1", sample_session)] 6 "u1" "f1"
      (by simp)).1 "sid1" sample_session (by decide) rfl rfl (by decide)
  · exact (C5_session_resolution [("sid1", sample_session)] 6 "u2" "f1"
      (by simp)).2.1 "sid1" sample_session rfl (Or.inl (by decide))

/-- Claim C7: the loop makes at most `max_iterations = 5` model calls;
with a model that requests tool calls in every round it runs exactly 5
rounds, emits no `error` event for the exhausted budget, and still ends
with `done`. -/
theorem C7_round_limit (env : AgentEnv) (store : Store) (now : Nat)
    (fresh_id message user_id : String) (session_id : Option String)
    (script : Nat → RoundScript) (hcfg : env.openai_key_set = true)
    (hscript : ∀ i, ∃ chunks tcs,
      script i = RoundScript.reply chunks tcs ∧ tcs ≠ [] ∧
        ∀ tc ∈ tcs, tc.arguments.isParsed = true) :
    (process_chat_stream env store now fresh_id message user_id session_id
        script).rounds = max_iterations
    ∧ (process_chat_stream env store now fresh_id message user_id
        session_id script).events.getLast? = some StreamEvent.done
    ∧ (process_chat_stream env store now fresh_id message user_id
        session_id script).events.all (fun e => !e.isError) = true
    ∧ ∀ (env2 : AgentEnv) (store2 : Store) (now2 : Nat)
        (f2 m2 u2 : String) (s2 : Option String)
        (script2 : Nat → RoundScript),
        (process_chat_stream env2 store2 now2 f2 m2 u2 s2 script2).rounds
          ≤ max_iterations := by
  rw [process_chat_stream]
  simp only [hcfg, Bool.not_true, Bool.false_eq_true, if_false]
  obtain ⟨hrounds, hall, -⟩ := agent_loop_always_tool env user_id script 0
    max_iterations
    (systemMessage :: ((get_or_create_session store now user_id session_id
      fresh_id).1.add_message now "user"
        (some message)).get_messages_for_api)
    ((get_or_create_session store now user_id session_id
      fresh_id).1.add_message now "user" (some message)) now hscript
  refine ⟨hrounds, ?_, ?_, ?_⟩
  · rw [← List.cons_append, List.getLast?_concat]
  · rw [List.all_cons, List.all_append, hall]
    rfl
  · intro env2 store2 now2 f2 m2 u2 s2 script2
    rw [process_chat_stream]
    cases hcfg2 : env2.openai_key_set with
    | false =>
      simp [hcfg2, max_iterations]
    | true =>
      simp only [hcfg2, Bool.not_true, Bool.false_eq_true, if_false]
      exact agent_loop_rounds_le env2 u2 script2 0 max_iterations _ _ now2

/-- Witness for C7: a model that calls an unregistered tool every round
runs exactly 5 rounds and the stream still ends with `done` and carries
no `error`. -/
theorem C7_round_limit_witness :
    (process_chat_stream no_tools_env [] 0 "s1" "hi" "u1" none
        always_tool_script).rounds = max_iterations
    ∧ (process_chat_stream no_tools_env [] 0 "s1" "hi" "u1" none
        always_tool_script).events.getLast? = some StreamEvent.done := by
  have H := C7_round_limit no_tools_env [] 0 "s1" "hi" "u1" none
    always_tool_script rfl (fun i =>
      ⟨[], [{ id := "c", name := "foo", arguments := ToolArgs.parsed [] }],
        rfl, by decide, by decide⟩)
  exact ⟨H.1, H.2.1⟩

/-- Claim C8: a model-gateway failure ends the round with an `error`
event immediately followed by `done`, and the stored history is exactly
what it was at the start of the failed round — no partial assistant
message is appended. -/
theorem C8_model_error :
    (∀ (env : AgentEnv) (user_id : String) (chunks : List String)
      (e : String) (messages : List Msg) (session : ChatSession)
      (now : Nat),
      run_round env user_id (RoundScript.gatewayError chunks e) messages
          session now
        = RoundOutcome.halt
            (content_events chunks ++ [StreamEvent.error e]) session)
    ∧ (∀ (env : AgentEnv) (store : Store) (now : Nat)
        (fresh_id message user_id : String) (session_id : Option String)
        (script : Nat → RoundScript) (chunks : List String) (e : String),
        env.openai_key_set = true →
        script 0 = RoundScript.gatewayError chunks e →
        (process_chat_stream env store now fresh_id message user_id
            session_id script).events
          = StreamEvent.content ""
              (some (((get_or_create_session store now user_id session_id
                fresh_id).1.add_message now "user"
                  (some message)).session_id))
            :: (content_events chunks
              ++ [StreamEvent.error e, StreamEvent.done])
        ∧ (process_chat_stream env store now fresh_id message user_id
            session_id script).session
          = some ((get_or_create_session store now user_id session_id
              fresh_id).1.add_message now "user" (some message))) := by
  constructor
  · intro env user_id chunks e messages session now
    rfl
  · intro env store now fresh_id message user_id session_id script chunks
      e hcfg hscr
    rw [process_chat_stream]
    simp only [hcfg, Bool.not_true, Bool.false_eq_true, if_false]
    have h5 : max_iterations = Nat.succ 4 := rfl
    rw [h5]
    rw [agent_loop, hscr]
    constructor
    · simp [run_round]
    · simp [run_round]

/-- Witness for C8: a concrete failing round yields content, then
`error`, then `done`, and stores only the user message. -/
theorem C8_model_error_witness :
    (process_chat_stream no_tools_env [] 0 "s1" "hi" "u1" none
        failing_script).events
      = [StreamEvent.content "" (some "s1"),
         StreamEvent.content "partial answer" none,
         StreamEvent.error "connection reset", StreamEvent.done]
    ∧ (process_chat_stream no_tools_env [] 0 "s1" "hi" "u1" none
        failing_script).session
      = some { session_id := "s1", user_id := "u1",
               messages := [mkMessage "user" (some "hi") none],
               created_at := 0, last_activity := 0 } := by
  have h := C8_model_error.2 no_tools_env [] 0 "s1" "hi" "u1" none
    failing_script ["partial answer"] "connection reset" rfl rfl
  refine ⟨?_, ?_⟩
  · rw [h.1]
    rfl
  · rw [h.2]
    rfl

/-- Claim C10: every entry a finished turn leaves in the stored session
history has role `user` or `assistant` and no tool-call list — the system
prompt and all tool traffic live only on the transient per-turn list. -/
theorem C10_stored_roles (env : AgentEnv) (store : Store) (now : Nat)
    (fresh_id message user_id : String) (session_id : Option String)
    (script : Nat → RoundScript) (s : ChatSession)
    (hstore : ∀ p ∈ store, session_wf p.2 = true)
    (hs : (process_chat_stream env store now fresh_id message user_id
      session_id script).session = some s) :
    session_wf s = true :=
  process_session_wf env store now fresh_id message user_id session_id
    script s hstore hs

/-- Witness for C10: the session stored by a concrete turn (with a tool
round in it) is well-formed. -/
theorem C10_stored_roles_witness :
    session_wf
      { session_id := "s1"
        user_id := "u1"
        messages := [mkMessage "user" (some "hi") none,
          mkMessage "assistant" (some "done") none]
        created_at := 0
        last_activity := 0 } = true := by
  exact C10_stored_roles echo_env [] 0 "s1" "hi" "u1" none one_tool_script
    _ (by intro p hp; simp at hp) rfl

end TaskFlow
